import Mathlib

/-!
Shallow embedding of the search-and-evaluation core of a UCI chess engine:
the `Score` algebra (src/score.rs), the `BoardEvaluation` record and the
negamax / quiescence search (src/engine/mod.rs), the tapered piece-square
evaluator (src/engine/evaluation.rs), and the stop-time calculation.

Machine integers (`i8`, `i16`) are modelled as `Int`. Where the source's
arithmetic can overflow (`Score::flip` / `Score::negate` on the `i8` mate
counter and the `i16` centipawn negation), every operation wraps
two's-complement via `wrap8` / `wrap16` — Rust's release semantics; debug
builds panic on exactly those boundary inputs. Range hypotheses are stated
where a claim is about representable values.
-/

/-- Player color, as in the external `chess` crate. -/
inductive Color where
  | White
  | Black
deriving DecidableEq, Repr

/-- Chess piece kind, as in the external `chess` crate. -/
inductive Piece where
  | Pawn
  | Knight
  | Bishop
  | Rook
  | Queen
  | King
deriving DecidableEq, Repr

/-- Board status, as reported by the external `chess` crate. -/
inductive BoardStatus where
  | Ongoing
  | Stalemate
  | Checkmate
deriving DecidableEq, Repr

/-- Moves are opaque to the engine core; only their identity matters here. -/
abbrev Move := Nat

/-- Integer comparison, the semantics of Rust's `i16::cmp` / `i8::cmp`. -/
def icmp (a b : Int) : Ordering :=
  if a < b then .lt else if a = b then .eq else .gt

/-- Two's-complement wrap-around to the `i8` range, Rust release semantics
of an overflowing `i8` operation. -/
def wrap8 (x : Int) : Int := (x + 128) % 256 - 128

/-- Two's-complement wrap-around to the `i16` range, Rust release semantics
of an overflowing `i16` operation. -/
def wrap16 (x : Int) : Int := (x + 32768) % 65536 - 32768

/-- `Score` from src/score.rs: centipawn advantage or mate-in-x, always from
the side-to-move's perspective. -/
inductive Score where
  | Centipawns (cp : Int)
  | Mate (m : Int)
deriving DecidableEq, Repr

namespace Score

/-- `Score::cp` -/
def cp (score : Int) : Score := Centipawns score

/-- `Score::mate` -/
def mate (moves : Int) : Score := Mate moves

/-- `Score::flip`: perspective inversion; mate counters are increased by one
(`(m.abs() + 1) * -1` on the positive side, `m.abs() + 1` otherwise). Each
`i8`/`i16` step (`abs`, `+ 1`, `* -1`, `-cp`) wraps two's-complement, so at
the boundary inputs `Mate(-128)`, `Mate(-127)`, `Mate(127)` and
`Centipawns(-32768)` this is Rust's release behavior (debug builds panic
there). -/
def flip : Score → Score
  | Centipawns c => Centipawns (wrap16 (-c))
  | Mate m =>
    if 0 < m then Mate (wrap8 (-(wrap8 (wrap8 |m| + 1))))
    else Mate (wrap8 (wrap8 |m| + 1))

/-- `Score::negate`: pure sign flip, no ply shift, each step wrapping as in
`flip`. (The source debug-asserts that the argument is not `Mate(0)`.) -/
def negate : Score → Score
  | Centipawns c => Centipawns (wrap16 (-c))
  | Mate m => Mate (wrap8 (-m))

/-- `Score::min`: the minimum possible score, M0. -/
def min : Score := Mate 0

/-- `Score::min_negatable` -/
def min_negatable : Score := Mate (-1)

/-- `Score::max`: the maximum possible score, M1. -/
def max : Score := Mate 1

/-- `Ord for Score` from src/score.rs, case for case. -/
def cmp : Score → Score → Ordering
  | Centipawns s1, Centipawns s2 => icmp s1 s2
  | Centipawns _, Mate m => if m ≤ 0 then .gt else .lt
  | Mate m, Centipawns _ => if m ≤ 0 then .lt else .gt
  | Mate m1, Mate m2 =>
    if m1 ≤ 0 ∧ m2 ≤ 0 then icmp m2 m1
    else if m1 ≤ 0 ∧ 0 < m2 then .lt
    else if 0 < m1 ∧ m2 ≤ 0 then .gt
    else icmp m2 m1

/-- Rust `<` on `Score`, via the derived `PartialOrd`. -/
def slt (a b : Score) : Bool := a.cmp b == .lt

/-- Rust `<=` on `Score`, via the derived `PartialOrd`. -/
def sle (a b : Score) : Bool := a.cmp b != .gt

/-- Rust `>=` on `Score`, via the derived `PartialOrd`. -/
def sge (a b : Score) : Bool := a.cmp b != .lt

/-- Rust `>` on `Score`, via the derived `PartialOrd`. -/
def sgt (a b : Score) : Bool := a.cmp b == .gt

end Score

/-- `BoardEvaluation` from src/engine/mod.rs: the return value of
`Engine::evaluate_board`. `depth` is a `u8` in the source; search depths stay
far below 256, so it is modelled as `Nat`. -/
structure BoardEvaluation where
  mv : Option Move
  depth : Nat
  score : Score
  terminated_early : Bool
deriving DecidableEq, Repr

namespace BoardEvaluation

/-- `BoardEvaluation::from_child`: lift a child evaluation one ply up —
record the move, flip the score, keep depth and the early-termination flag. -/
def from_child (child : BoardEvaluation) (mv : Move) : BoardEvaluation :=
  { mv := some mv
    depth := child.depth
    score := child.score.flip
    terminated_early := child.terminated_early }

/-- `BoardEvaluation::score` (constructor for terminal nodes; renamed to avoid
clashing with the field of the same name). -/
def mkScore (score : Score) (depth : Nat) : BoardEvaluation :=
  { mv := none, depth := depth, score := score, terminated_early := false }

/-- `BoardEvaluation::score_early` (constructor for time-gated nodes). -/
def mkScoreEarly (score : Score) (depth : Nat) : BoardEvaluation :=
  { mv := none, depth := depth, score := score, terminated_early := true }

/-- `BoardEvaluation::min`: the reduction identity, lower than everything. -/
def min : BoardEvaluation :=
  { mv := none, depth := 0, score := Score.Mate 0, terminated_early := false }

/-- `BoardEvaluation::overwrite`: take `mv`, `score`, `terminated_early` from
`other`, and the max of the depths. -/
def overwrite (self other : BoardEvaluation) : BoardEvaluation :=
  { mv := other.mv
    score := other.score
    terminated_early := other.terminated_early
    depth := Nat.max self.depth other.depth }

/-- `Ord for BoardEvaluation`: compares the `score` fields only. -/
def cmp (a b : BoardEvaluation) : Ordering := a.score.cmp b.score

/-- Rust `<` on `BoardEvaluation`, via the derived `PartialOrd`. -/
def blt (a b : BoardEvaluation) : Bool := a.cmp b == .lt

end BoardEvaluation

/-!
Finite game trees: the unfolding of the board graph that a single call of
`Engine::evaluate_board` / `Engine::evaluate_board_quiescence` explores.
A node records what the search observes at that board: the `chess` crate's
`board.status()`, the static heuristic (`piece_table_eval`, an `i16`), the
result of the per-node clock check `Instant::now() > stop_time`, and the
children produced by `MoveGen::new_legal` (for quiescence, after
`remove_mask` restricts it to captures). Forests are isomorphic to
`List (Move × Tree)`; an explicit forest type keeps the recursion structural.
-/

mutual

/-- Capture-only (quiescence) unfolding of a board. -/
inductive QTree where
  | node (status : BoardStatus) (heur : Int) (timeUp : Bool) (children : QForest)

inductive QForest where
  | nil
  | cons (mv : Move) (t : QTree) (rest : QForest)

end

mutual

/-- Full legal-move unfolding of a board; `qchildren` is the capture-only
unfolding of the same board, entered at the search horizon. -/
inductive GTree where
  | node (status : BoardStatus) (heur : Int) (timeUp : Bool)
      (qchildren : QForest) (children : GForest)

inductive GForest where
  | nil
  | cons (mv : Move) (t : GTree) (rest : GForest)

end

/-- The `board.status()` this node observes. -/
def QTree.status : QTree → BoardStatus
  | .node s _ _ _ => s

/-- The `piece_table_eval` value at this node's board. -/
def QTree.heur : QTree → Int
  | .node _ h _ _ => h

/-- The clock check `Instant::now() > stop_time` observed at this node. -/
def QTree.timeUp : QTree → Bool
  | .node _ _ u _ => u

/-- The capture children of this node. -/
def QTree.children : QTree → QForest
  | .node _ _ _ c => c

/-- The `board.status()` this node observes. -/
def GTree.status : GTree → BoardStatus
  | .node s _ _ _ _ => s

/-- The `piece_table_eval` value at this node's board. -/
def GTree.heur : GTree → Int
  | .node _ h _ _ _ => h

/-- The clock check `Instant::now() > stop_time` observed at this node. -/
def GTree.timeUp : GTree → Bool
  | .node _ _ u _ _ => u

/-- The capture children of this node's board. -/
def GTree.qchildren : GTree → QForest
  | .node _ _ _ q _ => q

/-- The legal-move children of this node. -/
def GTree.children : GTree → GForest
  | .node _ _ _ _ c => c

mutual

/-- `Engine::evaluate_board_quiescence` from src/engine/mod.rs, sequentialized:
the rayon `find_map_any` over sibling moves is modelled as a left-to-right
fold with early return (`qloop`), which is one admissible scheduling of the
work-stealing pool. -/
def evalQ (t : QTree) (alpha beta : Score) (depth : Nat) : BoardEvaluation :=
  match t with
  | .node status heur timeUp children =>
    match status with
    | .Checkmate => BoardEvaluation.mkScore (Score.Mate 0) depth
    | .Stalemate => BoardEvaluation.mkScore (Score.cp 0) depth
    | .Ongoing =>
      if timeUp then
        BoardEvaluation.mkScoreEarly (Score.cp heur) depth
      else
        let stand_pat := Score.cp heur
        if Score.sge stand_pat beta then
          BoardEvaluation.mkScore stand_pat depth
        else
          let alpha0 := if Score.slt alpha stand_pat then stand_pat else alpha
          qloop beta depth children (BoardEvaluation.mkScore stand_pat depth) alpha0

/-- The body of the quiescence sibling loop. Per move: recurse with the
window `(beta.flip(), alpha_snapshot.flip())`, lift via `from_child`, then —
in source order — return `eval` on `eval.score >= beta`, overwrite `best`
when `eval > best`, and raise `alpha` when `eval.score > alpha`. -/
def qloop (beta : Score) (depth : Nat) (children : QForest)
    (best : BoardEvaluation) (alpha : Score) : BoardEvaluation :=
  match children with
  | .nil => best
  | .cons mv t rest =>
    let eval := BoardEvaluation.from_child
      (evalQ t (Score.flip beta) (Score.flip alpha) (depth + 1)) mv
    if Score.sge eval.score beta then
      eval
    else
      let best1 := if BoardEvaluation.blt best eval then best.overwrite eval else best
      let alpha1 := if Score.sgt eval.score alpha then eval.score else alpha
      qloop beta depth rest best1 alpha1

end

mutual

/-- `Engine::evaluate_board` from src/engine/mod.rs, sequentialized the same
way as `evalQ`. `csd` is the engine field `current_search_depth`. At the
horizon (`depth == csd`) the node's own board is handed to quiescence. -/
def evalG (csd : Nat) (t : GTree) (alpha beta : Score) (depth : Nat) :
    BoardEvaluation :=
  match t with
  | .node status heur timeUp qchildren children =>
    match status with
    | .Checkmate => BoardEvaluation.mkScore (Score.Mate 0) depth
    | .Stalemate => BoardEvaluation.mkScore (Score.cp 0) depth
    | .Ongoing =>
      if depth = csd then
        evalQ (QTree.node .Ongoing heur timeUp qchildren) alpha beta depth
      else if timeUp then
        BoardEvaluation.mkScoreEarly (Score.cp heur) depth
      else
        gloop csd beta depth children BoardEvaluation.min alpha

/-- The body of the main-search sibling loop. Per move: recurse with the
window `(beta.flip(), alpha_snapshot.flip())`, lift via `from_child`; when
`eval > best`, overwrite `best` and (inside that branch) raise `alpha` when
`eval.score > alpha`; then on `eval.score >= beta` return the current `best`
(the beta cut). -/
def gloop (csd : Nat) (beta : Score) (depth : Nat) (children : GForest)
    (best : BoardEvaluation) (alpha : Score) : BoardEvaluation :=
  match children with
  | .nil => best
  | .cons mv t rest =>
    let eval := BoardEvaluation.from_child
      (evalG csd t (Score.flip beta) (Score.flip alpha) (depth + 1)) mv
    let best1 := if BoardEvaluation.blt best eval then best.overwrite eval else best
    let alpha1 :=
      if BoardEvaluation.blt best eval then
        if Score.sgt eval.score alpha then eval.score else alpha
      else alpha
    if Score.sge eval.score beta then
      best1
    else
      gloop csd beta depth rest best1 alpha1

end

/-!
The board model: what `piece_table_eval` (src/engine/evaluation.rs) consumes
from the external `chess` crate — the occupant of each square
(`board.piece_on` / `board.color_on`, coherent by construction) and
`board.side_to_move()`. Square indices are the crate's absolute indices,
`0 = A1, …, 7 = H1, 56 = A8, …, 63 = H8`.
-/

/-- A chess board as seen by the static evaluator. -/
structure Board where
  squares : Nat → Option (Piece × Color)
  sideToMove : Color

/-- `board.piece_on(square)` -/
def Board.pieceOn (b : Board) (i : Nat) : Option Piece :=
  (b.squares i).map Prod.fst

/-- `board.color_on(square)` -/
def Board.colorOn (b : Board) (i : Nat) : Option Color :=
  (b.squares i).map Prod.snd

/-- `board.pieces(piece).popcnt()`: pieces of this kind of both colors. -/
def Board.popcnt (b : Board) (p : Piece) : Nat :=
  (List.range 64).countP fun i =>
    match b.squares i with
    | some (q, _) => q == p
    | none => false

/-!
The PeSTo tables from the `tables` module of src/engine/evaluation.rs:
positional arrays per (piece, phase), material values per (piece, phase),
and the combined tables obtained by adding the material value elementwise.
-/

/-- `midgame_material_values` from src/engine/evaluation.rs. -/
def midgame_material_values : Piece → Int
  | .Pawn => 82
  | .Knight => 337
  | .Bishop => 365
  | .Rook => 477
  | .Queen => 1025
  | .King => 0

/-- `endgame_material_values` from src/engine/evaluation.rs. -/
def endgame_material_values : Piece → Int
  | .Pawn => 94
  | .Knight => 281
  | .Bishop => 297
  | .Rook => 512
  | .Queen => 936
  | .King => 0
/-- `MIDGAME_PAWN_POSITION_VALUE` from src/engine/evaluation.rs. -/
def MIDGAME_PAWN_POSITION_VALUE : List Int := [
  0, 0, 0, 0, 0, 0, 0, 0,
  (-35), (-1), (-20), (-23), (-15), 24, 38, (-22),
  (-26), (-4), (-4), (-10), 3, 3, 33, (-12),
  (-27), (-2), (-5), 12, 17, 6, 10, (-25),
  (-14), 13, 6, 21, 23, 12, 17, (-23),
  (-6), 7, 26, 31, 65, 56, 25, (-20),
  98, 134, 61, 95, 68, 126, 34, (-11),
  0, 0, 0, 0, 0, 0, 0, 0]

/-- `ENDGAME_PAWN_POSITION_VALUE` from src/engine/evaluation.rs. -/
def ENDGAME_PAWN_POSITION_VALUE : List Int := [
  0, 0, 0, 0, 0, 0, 0, 0,
  13, 8, 8, 10, 13, 0, 2, (-7),
  4, 7, (-6), 1, 0, (-5), (-1), (-8),
  13, 9, (-3), (-7), (-7), (-8), 3, (-1),
  32, 24, 13, 5, (-2), 4, 17, 17,
  94, 100, 85, 67, 56, 53, 82, 84,
  178, 173, 158, 134, 147, 132, 165, 187,
  0, 0, 0, 0, 0, 0, 0, 0]

/-- `MIDGAME_KNIGHT_POSITION_VALUE` from src/engine/evaluation.rs. -/
def MIDGAME_KNIGHT_POSITION_VALUE : List Int := [
  (-105), (-21), (-58), (-33), (-17), (-28), (-19), (-23),
  (-29), (-53), (-12), (-3), (-1), 18, (-14), (-19),
  (-23), (-9), 12, 10, 19, 17, 25, (-16),
  (-13), 4, 16, 13, 28, 19, 21, (-8),
  (-9), 17, 19, 53, 37, 69, 18, 22,
  (-47), 60, 37, 65, 84, 129, 73, 44,
  (-73), (-41), 72, 36, 23, 62, 7, (-17),
  (-167), (-89), (-34), (-49), 61, (-97), (-15), (-107)]

/-- `ENDGAME_KNIGHT_POSITION_VALUE` from src/engine/evaluation.rs. -/
def ENDGAME_KNIGHT_POSITION_VALUE : List Int := [
  (-29), (-51), (-23), (-15), (-22), (-18), (-50), (-64),
  (-42), (-20), (-10), (-5), (-2), (-20), (-23), (-44),
  (-23), (-3), (-1), 15, 10, (-3), (-20), (-22),
  (-18), (-6), 16, 25, 16, 17, 4, (-18),
  (-17), 3, 22, 22, 22, 11, 8, (-18),
  (-24), (-20), 10, 9, (-1), (-9), (-19), (-41),
  (-25), (-8), (-25), (-2), (-9), (-25), (-24), (-52),
  (-58), (-38), (-13), (-28), (-31), (-27), (-63), (-99)]

/-- `MIDGAME_BISHOP_POSITION_VALUE` from src/engine/evaluation.rs. -/
def MIDGAME_BISHOP_POSITION_VALUE : List Int := [
  (-33), (-3), (-14), (-21), (-13), (-12), (-39), (-21),
  4, 15, 16, 0, 7, 21, 33, 1,
  0, 15, 15, 15, 14, 27, 18, 10,
  (-6), 13, 13, 26, 34, 12, 10, 4,
  (-4), 5, 19, 50, 37, 37, 7, (-2),
  (-16), 37, 43, 40, 35, 50, 37, (-2),
  (-26), 16, (-18), (-13), 30, 59, 18, (-47),
  (-29), 4, (-82), (-37), (-25), (-42), 7, (-8)]

/-- `ENDGAME_BISHOP_POSITION_VALUE` from src/engine/evaluation.rs. -/
def ENDGAME_BISHOP_POSITION_VALUE : List Int := [
  (-23), (-9), (-23), (-5), (-9), (-16), (-5), (-17),
  (-14), (-18), (-7), (-1), 4, (-9), (-15), (-27),
  (-12), (-3), 8, 10, 13, 3, (-7), (-15),
  (-6), 3, 13, 19, 7, 10, (-3), (-9),
  (-3), 9, 12, 9, 14, 10, 3, 2,
  2, (-8), 0, (-1), (-2), 6, 0, 4,
  (-8), (-4), 7, (-12), (-3), (-13), (-4), (-14),
  (-14), (-21), (-11), (-8), (-7), (-9), (-17), (-24)]

/-- `MIDGAME_ROOK_POSITION_VALUE` from src/engine/evaluation.rs. -/
def MIDGAME_ROOK_POSITION_VALUE : List Int := [
  (-19), (-13), 1, 17, 16, 7, (-37), (-26),
  (-44), (-16), (-20), (-9), (-1), 11, (-6), (-71),
  (-45), (-25), (-16), (-17), 3, 0, (-5), (-33),
  (-36), (-26), (-12), (-1), 9, (-7), 6, (-23),
  (-24), (-11), 7, 26, 24, 35, (-8), (-20),
  (-5), 19, 26, 36, 17, 45, 61, 16,
  27, 32, 58, 62, 80, 67, 26, 44,
  32, 42, 32, 51, 63, 9, 31, 43]

/-- `ENDGAME_ROOK_POSITION_VALUE` from src/engine/evaluation.rs. -/
def ENDGAME_ROOK_POSITION_VALUE : List Int := [
  (-9), 2, 3, (-1), (-5), (-13), 4, (-20),
  (-6), (-6), 0, 2, (-9), (-9), (-11), (-3),
  (-4), 0, (-5), (-1), (-7), (-12), (-8), (-16),
  3, 5, 8, 4, (-5), (-6), (-8), (-11),
  4, 3, 13, 1, 2, 1, (-1), 2,
  7, 7, 7, 5, 4, (-3), (-5), (-3),
  11, 13, 13, 11, (-3), 3, 8, 3,
  13, 10, 18, 15, 12, 12, 8, 5]

/-- `MIDGAME_QUEEN_POSITION_VALUE` from src/engine/evaluation.rs. -/
def MIDGAME_QUEEN_POSITION_VALUE : List Int := [
  (-1), (-18), (-9), 10, (-15), (-25), (-31), (-50),
  (-35), (-8), 11, 2, 8, 15, (-3), 1,
  (-14), 2, (-11), (-2), (-5), 2, 14, 5,
  (-9), (-26), (-9), (-10), (-2), (-4), 3, (-3),
  (-27), (-27), (-16), (-16), (-1), 17, (-2), 1,
  (-13), (-17), 7, 8, 29, 56, 47, 57,
  (-24), (-39), (-5), 1, (-16), 57, 28, 54,
  (-28), 0, 29, 12, 59, 44, 43, 45]

/-- `ENDGAME_QUEEN_POSITION_VALUE` from src/engine/evaluation.rs. -/
def ENDGAME_QUEEN_POSITION_VALUE : List Int := [
  (-33), (-28), (-22), (-43), (-5), (-32), (-20), (-41),
  (-22), (-23), (-30), (-16), (-16), (-23), (-36), (-32),
  (-16), (-27), 15, 6, 9, 17, 10, 5,
  (-18), 28, 19, 47, 31, 34, 39, 23,
  3, 22, 24, 45, 57, 40, 57, 36,
  (-20), 6, 9, 49, 47, 35, 19, 9,
  (-17), 20, 32, 41, 58, 25, 30, 0,
  (-9), 22, 22, 27, 27, 19, 10, 20]

/-- `MIDGAME_KING_POSITION_VALUE` from src/engine/evaluation.rs. -/
def MIDGAME_KING_POSITION_VALUE : List Int := [
  (-15), 36, 12, (-54), 8, (-28), 24, 14,
  1, 7, (-8), (-64), (-43), (-16), 9, 8,
  (-14), (-14), (-22), (-46), (-44), (-30), (-15), (-27),
  (-49), (-1), (-27), (-39), (-46), (-44), (-33), (-51),
  (-17), (-20), (-12), (-27), (-30), (-25), (-14), (-36),
  (-9), 24, 2, (-16), (-20), 6, 22, (-22),
  29, (-1), (-20), (-7), (-8), (-4), (-38), (-29),
  (-65), 23, 16, (-15), (-56), (-34), 2, 13]

/-- `ENDGAME_KING_POSITION_VALUE` from src/engine/evaluation.rs. -/
def ENDGAME_KING_POSITION_VALUE : List Int := [
  (-53), (-34), (-21), (-11), (-28), (-14), (-24), (-43),
  (-27), (-11), 4, 13, 14, 4, (-5), (-17),
  (-19), (-3), 11, 21, 23, 16, 7, (-9),
  (-18), (-4), 21, 24, 27, 23, 9, (-11),
  (-8), 22, 24, 27, 26, 33, 26, 3,
  10, 17, 23, 15, 20, 45, 44, 13,
  (-12), 17, 14, 17, 17, 38, 23, 11,
  (-74), (-35), (-18), (-18), (-11), 15, 4, (-17)]

/-- `MIDGAME_PAWN_VALUE`: positional plus material, elementwise. -/
def MIDGAME_PAWN_VALUE : List Int :=
  MIDGAME_PAWN_POSITION_VALUE.map (· + midgame_material_values .Pawn)

/-- `ENDGAME_PAWN_VALUE`: positional plus material, elementwise. -/
def ENDGAME_PAWN_VALUE : List Int :=
  ENDGAME_PAWN_POSITION_VALUE.map (· + endgame_material_values .Pawn)

/-- `MIDGAME_KNIGHT_VALUE`: positional plus material, elementwise. -/
def MIDGAME_KNIGHT_VALUE : List Int :=
  MIDGAME_KNIGHT_POSITION_VALUE.map (· + midgame_material_values .Knight)

/-- `ENDGAME_KNIGHT_VALUE`: positional plus material, elementwise. -/
def ENDGAME_KNIGHT_VALUE : List Int :=
  ENDGAME_KNIGHT_POSITION_VALUE.map (· + endgame_material_values .Knight)

/-- `MIDGAME_BISHOP_VALUE`: positional plus material, elementwise. -/
def MIDGAME_BISHOP_VALUE : List Int :=
  MIDGAME_BISHOP_POSITION_VALUE.map (· + midgame_material_values .Bishop)

/-- `ENDGAME_BISHOP_VALUE`: positional plus material, elementwise. -/
def ENDGAME_BISHOP_VALUE : List Int :=
  ENDGAME_BISHOP_POSITION_VALUE.map (· + endgame_material_values .Bishop)

/-- `MIDGAME_ROOK_VALUE`: positional plus material, elementwise. -/
def MIDGAME_ROOK_VALUE : List Int :=
  MIDGAME_ROOK_POSITION_VALUE.map (· + midgame_material_values .Rook)

/-- `ENDGAME_ROOK_VALUE`: positional plus material, elementwise. -/
def ENDGAME_ROOK_VALUE : List Int :=
  ENDGAME_ROOK_POSITION_VALUE.map (· + endgame_material_values .Rook)

/-- `MIDGAME_QUEEN_VALUE`: positional plus material, elementwise. -/
def MIDGAME_QUEEN_VALUE : List Int :=
  MIDGAME_QUEEN_POSITION_VALUE.map (· + midgame_material_values .Queen)

/-- `ENDGAME_QUEEN_VALUE`: positional plus material, elementwise. -/
def ENDGAME_QUEEN_VALUE : List Int :=
  ENDGAME_QUEEN_POSITION_VALUE.map (· + endgame_material_values .Queen)

/-- `MIDGAME_KING_VALUE`: positional plus material, elementwise. -/
def MIDGAME_KING_VALUE : List Int :=
  MIDGAME_KING_POSITION_VALUE.map (· + midgame_material_values .King)

/-- `ENDGAME_KING_VALUE`: positional plus material, elementwise. -/
def ENDGAME_KING_VALUE : List Int :=
  ENDGAME_KING_POSITION_VALUE.map (· + endgame_material_values .King)

/-- Midgame table lookup for a piece, `mg[piece][index]` in the source. -/
def mgLookup (p : Piece) (index : Nat) : Int :=
  match p with
  | .Pawn => MIDGAME_PAWN_VALUE.getD index 0
  | .Knight => MIDGAME_KNIGHT_VALUE.getD index 0
  | .Bishop => MIDGAME_BISHOP_VALUE.getD index 0
  | .Rook => MIDGAME_ROOK_VALUE.getD index 0
  | .Queen => MIDGAME_QUEEN_VALUE.getD index 0
  | .King => MIDGAME_KING_VALUE.getD index 0

/-- Endgame table lookup for a piece, `eg[piece][index]` in the source. -/
def egLookup (p : Piece) (index : Nat) : Int :=
  match p with
  | .Pawn => ENDGAME_PAWN_VALUE.getD index 0
  | .Knight => ENDGAME_KNIGHT_VALUE.getD index 0
  | .Bishop => ENDGAME_BISHOP_VALUE.getD index 0
  | .Rook => ENDGAME_ROOK_VALUE.getD index 0
  | .Queen => ENDGAME_QUEEN_VALUE.getD index 0
  | .King => ENDGAME_KING_VALUE.getD index 0

/-- The per-square contribution of the sweep in `piece_table_eval`:
`(mg, eg)` for square `i`, with the side-to-move-dependent index flip
and the sign by piece ownership. An empty square contributes `(0, 0)`. -/
def squareContribution (b : Board) (i : Nat) : Int × Int :=
  match b.squares i with
  | none => (0, 0)
  | some (piece, color) =>
    let index :=
      match b.sideToMove with
      | .White => i
      | .Black => i ^^^ 56
    let mg_score := mgLookup piece index
    let eg_score := egLookup piece index
    if color = b.sideToMove then (mg_score, eg_score) else (-mg_score, -eg_score)

/-- `piece_table_eval` from src/engine/evaluation.rs: tapered piece-square
evaluation. The phase is clamped at 24; the final value is
`(mg·phase + eg·(24−phase)) / 24` with Rust's truncating `i16` division
(`Int.tdiv`). -/
def piece_table_eval (b : Board) : Int :=
  let phase : Int :=
    Nat.min
      (b.popcnt .Knight + b.popcnt .Bishop + 2 * b.popcnt .Rook + 4 * b.popcnt .Queen)
      24
  let inverse_phase : Int := 24 - phase
  let sums := (List.range 64).foldl
    (fun acc i =>
      let c := squareContribution b i
      (acc.1 + c.1, acc.2 + c.2))
    ((0 : Int), (0 : Int))
  Int.tdiv (sums.1 * phase + sums.2 * inverse_phase) 24

/-- `eval_heuristic` from src/engine/evaluation.rs. -/
def eval_heuristic (b : Board) : Score :=
  Score.cp (piece_table_eval b)

/-!
`Engine::calculate_stop_time` from src/engine/mod.rs. Durations and instants
are modelled in nanoseconds as `Nat`. `Instant::checked_add` fails (returns
`None`, surfaced through `context(..)` as an `anyhow` error) when the sum
exceeds the representable maximum, modelled by `INSTANT_MAX`. Rust `Duration`
subtraction (`movetime - SLACK_TIME`, `thinking_time - SLACK_TIME`) is
UNchecked: it panics on underflow. `Duration / u32` panics on a zero divisor
and otherwise truncates to whole nanoseconds. `unimplemented!` also panics.
-/

/-- `SLACK_TIME`: 20 milliseconds, in nanoseconds. -/
def SLACK_TIME : Nat := 20000000

/-- The largest representable instant, in nanoseconds since an epoch. -/
def INSTANT_MAX : Nat := 2 ^ 64 - 1

/-- The search options consumed by `calculate_stop_time` (from the external
`uci_parser` crate); durations in nanoseconds. -/
structure UciSearchOptions where
  infinite : Bool := false
  movetime : Option Nat := none
  wtime : Option Nat := none
  btime : Option Nat := none
  winc : Option Nat := none
  binc : Option Nat := none
  movestogo : Option Nat := none
  depth : Option Nat := none
deriving DecidableEq, Repr

/-- Outcome of `calculate_stop_time`, distinguishing the failure modes:
`ok` carries the `start_time` and `stop_time` the engine ends up with
(both `none` in infinite mode, where the function leaves the reset state
untouched); `fatalError` is the `anyhow` error produced when
`Instant::checked_add` overflows; the `panic⋯` outcomes are Rust panics —
unchecked `Duration` underflow, `Duration` division by zero, and the
`unimplemented!` macro. -/
inductive TimeCalcResult where
  | ok (start_time stop_time : Option Nat)
  | fatalError
  | panicUnderflow
  | panicDivByZero
  | panicUnimplemented
deriving DecidableEq, Repr

/-- Rust `Duration` subtraction: panics (here `none`) on underflow. -/
def durationSub (a b : Nat) : Option Nat :=
  if a < b then none else some (a - b)

/-- `Instant::checked_add`: `none` once past the representable maximum. -/
def instantCheckedAdd (now d : Nat) : Option Nat :=
  if now + d ≤ INSTANT_MAX then some (now + d) else none

/-- The `checked_add(..).context(..)` tail shared by both time-control
branches of the source: a `None` from `Instant::checked_add` becomes the
fatal error result, otherwise the stop time is recorded. -/
def addStop (now d : Nat) : TimeCalcResult :=
  match instantCheckedAdd now d with
  | none => .fatalError
  | some stop => .ok (some now) (some stop)

/-- The source pattern `checked_add(x - SLACK_TIME)`: the unchecked
`Duration` subtraction (panicking on underflow) followed by `addStop`. -/
def subSlackAndAdd (now dur : Nat) : TimeCalcResult :=
  match durationSub dur SLACK_TIME with
  | none => .panicUnderflow
  | some d => addStop now d

/-- `Engine::calculate_stop_time`, with the engine's search params freshly
reset (as `reset_search_params` leaves them) and the clock reading `now`.
`side` is `self.board.side_to_move()`. -/
def calculate_stop_time (side : Color) (options : UciSearchOptions) (now : Nat) :
    TimeCalcResult :=
  if options.infinite then
    .ok none none
  else
    match options.movetime with
    | some movetime => subSlackAndAdd now movetime
    | none =>
      let timeInc :=
        match side with
        | .White => (options.wtime, options.winc)
        | .Black => (options.btime, options.binc)
      match timeInc.1 with
      | some time =>
        let thinking : TimeCalcResult ⊕ Nat :=
          match options.movestogo with
          | some movestogo =>
            if movestogo = 0 then .inl .panicDivByZero else .inr (time / movestogo)
          | none =>
            match timeInc.2 with
            | some inc => .inr (time / 20 + inc / 2)
            | none => .inl .panicUnimplemented
        match thinking with
        | .inl r => r
        | .inr thinking_time => subSlackAndAdd now thinking_time
      | none => .panicUnimplemented

deriving instance DecidableEq for QTree, QForest

deriving instance DecidableEq for GTree, GForest

/-- Scores representable in the source's machine types: the mate counter is
an `i8`. (No bound is needed on the centipawn payload here: only the mate
range matters for the facts below.) -/
def Score.InRange : Score → Prop
  | .Centipawns _ => True
  | .Mate m => -128 ≤ m ∧ m ≤ 127

/-- Characterization of `Score.cmp _ _ = .gt` as a linear-arithmetic
predicate; the workhorse for the order-theoretic lemmas below. -/
def Score.gtSpec : Score → Score → Prop
  | .Centipawns s1, .Centipawns s2 => s2 < s1
  | .Centipawns _, .Mate m => m ≤ 0
  | .Mate m, .Centipawns _ => 0 < m
  | .Mate m1, .Mate m2 =>
    (m1 ≤ 0 ∧ m2 ≤ 0 ∧ m1 < m2) ∨ (0 < m1 ∧ m2 ≤ 0) ∨ (0 < m1 ∧ 0 < m2 ∧ m1 < m2)

/-!
Concrete boards and game trees used as failing inputs and witnesses.
-/

/-- Piece placement with only the two kings: white king on e1 (square 4),
black king on e8 (square 60). Both side-to-move choices are legal chess
positions (neither king is in check), so flipping the side to move is
physically realizable. -/
def kingsSquares : Nat → Option (Piece × Color) := fun i =>
  if i = 4 then some (.King, .White)
  else if i = 60 then some (.King, .Black)
  else none

/-- The kings-only position with white to move. -/
def kingsWhite : Board := { squares := kingsSquares, sideToMove := .White }

/-- The kings-only position with black to move: the side-to-move swap of
`kingsWhite`. -/
def kingsBlack : Board := { squares := kingsSquares, sideToMove := .Black }

/-- A child board that is already stalemate (clean terminal). -/
def c2staleChild : GTree := .node .Stalemate 0 false .nil .nil

/-- A child board that is ongoing but observes the deadline as passed
(its clock check fires), heuristic 50. -/
def c2gatedChild : GTree := .node .Ongoing 50 true .nil .nil

/-- Interior position: first move leads to a stalemate, second move leads to
a subtree that hits the time gate. -/
def c2tree : GTree :=
  .node .Ongoing 7 false .nil (.cons 1 c2staleChild (.cons 2 c2gatedChild .nil))

/-- A grandchild board that is stalemate. -/
def c3grandchild : GTree := .node .Stalemate 0 false .nil .nil

/-- A child whose subtree is explored two plies deep (to the stalemate). -/
def c3deepChild : GTree := .node .Ongoing 5 false .nil (.cons 11 c3grandchild .nil)

/-- A child board that is immediate checkmate (the move mates). -/
def c3mateChild : GTree := .node .Checkmate 0 false .nil .nil

/-- Interior position searched with `current_search_depth = 2`: the first
move's subtree reaches depth 2; the second move mates and triggers a beta
cutoff whose lifted value has depth 1. -/
def c3tree : GTree :=
  .node .Ongoing 7 false .nil (.cons 1 c3deepChild (.cons 2 c3mateChild .nil))

/-- A checkmate node for the main search. -/
def c8mateG : GTree := .node .Checkmate 3 false .nil .nil

/-- A stalemate node for the main search. -/
def c8staleG : GTree := .node .Stalemate 3 false .nil .nil

/-- A checkmate node for quiescence. -/
def c8mateQ : QTree := .node .Checkmate 3 false .nil

/-- A stalemate node for quiescence. -/
def c8staleQ : QTree := .node .Stalemate 3 false .nil

/-- Quiescence position with favorable stand-pat 40 and a single available
capture; the position after the capture has stand-pat −90 from the
opponent's perspective. Either way, the returned score stays bounded below
by the stand-pat. -/
def c9tree : QTree :=
  .node .Ongoing 40 false (.cons 1 (.node .Ongoing (-90) false .nil) .nil)

/-!
Order-theoretic facts about `icmp`, `Score.cmp` and the Bool comparisons,
used by the claim theorems below.
-/

theorem icmp_gt_iff {a b : Int} : icmp a b = .gt ↔ b < a := by
  unfold icmp; split_ifs <;> simp <;> omega

theorem icmp_lt_iff {a b : Int} : icmp a b = .lt ↔ a < b := by
  unfold icmp; split_ifs <;> simp <;> omega

theorem icmp_eq_iff {a b : Int} : icmp a b = .eq ↔ a = b := by
  unfold icmp; split_ifs <;> simp <;> omega

theorem Score.cmp_gt_iff (a b : Score) : a.cmp b = .gt ↔ Score.gtSpec a b := by
  rcases a with ca | ma <;> rcases b with cb | mb <;>
    simp only [Score.cmp, Score.gtSpec] <;>
    (try split_ifs) <;>
    (try simp only [icmp_gt_iff, icmp_lt_iff, icmp_eq_iff]) <;>
    (try simp) <;> omega

theorem Score.cmp_lt_iff (a b : Score) : a.cmp b = .lt ↔ Score.gtSpec b a := by
  rcases a with ca | ma <;> rcases b with cb | mb <;>
    simp only [Score.cmp, Score.gtSpec] <;>
    (try split_ifs) <;>
    (try simp only [icmp_gt_iff, icmp_lt_iff, icmp_eq_iff]) <;>
    (try simp) <;> omega

theorem Score.cmp_eq_iff (a b : Score) : a.cmp b = .eq ↔ a = b := by
  rcases a with ca | ma <;> rcases b with cb | mb <;>
    simp only [Score.cmp, Score.Centipawns.injEq, Score.Mate.injEq] <;>
    (try split_ifs) <;>
    (try simp only [icmp_gt_iff, icmp_lt_iff, icmp_eq_iff]) <;>
    (try simp) <;> omega

theorem Score.slt_iff (a b : Score) : Score.slt a b = true ↔ Score.gtSpec b a := by
  rw [← Score.cmp_lt_iff]
  unfold Score.slt
  cases h : a.cmp b <;> decide

theorem Score.sgt_iff (a b : Score) : Score.sgt a b = true ↔ Score.gtSpec a b := by
  rw [← Score.cmp_gt_iff]
  unfold Score.sgt
  cases h : a.cmp b <;> decide

theorem Score.sle_iff (a b : Score) : Score.sle a b = true ↔ ¬ Score.gtSpec a b := by
  rw [← Score.cmp_gt_iff]
  unfold Score.sle
  cases h : a.cmp b <;> decide

theorem Score.sge_iff (a b : Score) : Score.sge a b = true ↔ ¬ Score.gtSpec b a := by
  rw [← Score.cmp_lt_iff]
  unfold Score.sge
  cases h : a.cmp b <;> decide

theorem Score.sge_false_iff (a b : Score) : Score.sge a b = false ↔ Score.gtSpec b a := by
  rw [← Score.cmp_lt_iff]
  unfold Score.sge
  cases h : a.cmp b <;> decide

theorem Score.gtSpec_trans {a b c : Score} (h1 : Score.gtSpec a b)
    (h2 : Score.gtSpec b c) : Score.gtSpec a c := by
  rcases a with ca | ma <;> rcases b with cb | mb <;> rcases c with cc | mc <;>
    simp only [Score.gtSpec] at * <;> omega

theorem Score.gtSpec_irrefl (a : Score) : ¬ Score.gtSpec a a := by
  rcases a with ca | ma <;> simp only [Score.gtSpec] <;> omega

theorem BoardEvaluation.blt_iff (a b : BoardEvaluation) :
    BoardEvaluation.blt a b = true ↔ Score.gtSpec b.score a.score := by
  rw [← Score.cmp_lt_iff]
  unfold BoardEvaluation.blt BoardEvaluation.cmp
  cases h : a.score.cmp b.score <;> decide

/-- A wrapped flip always lands back in the representable range. -/
theorem Score.flip_inRange (s : Score) : Score.InRange s.flip := by
  rcases s with c | m
  · trivial
  · simp only [Score.flip]
    split_ifs <;> simp only [Score.InRange, wrap8] <;> omega

/-- Flipping an in-range score never yields `Mate 0`: on the `i8` range the
wrapped mate-counter chain `(|m| + 1)` (negated on the positive side) is
never 0. -/
theorem Score.flip_ne_mate0 (s : Score) (hs : Score.InRange s) :
    s.flip ≠ Score.Mate 0 := by
  rcases s with c | m <;> simp only [Score.flip]
  · intro h; exact Score.noConfusion h
  · simp only [Score.InRange] at hs
    rcases (by omega : 0 < m ∨ m ≤ 0) with hm | hm
    · rw [if_pos hm, abs_of_pos hm]
      intro h; rw [Score.Mate.injEq] at h
      simp only [wrap8] at h; omega
    · rw [if_neg (by omega : ¬ 0 < m), abs_of_nonpos hm]
      intro h; rw [Score.Mate.injEq] at h
      simp only [wrap8] at h; omega

theorem Score.gtSpec_of_ne_mate0 (s : Score) (h : s ≠ Score.Mate 0) :
    Score.gtSpec s (Score.Mate 0) := by
  rcases s with c | m <;> simp only [Score.gtSpec]
  · omega
  · have : m ≠ 0 := fun hm => h (by rw [hm])
    omega

/-- The quiescence loop preserves representability of the best score:
a lifted child score is a (wrapped, hence in-range) flip, and the seed is
assumed in range. -/
theorem qloop_inRange (beta : Score) (d : Nat) :
    ∀ (children : QForest) (best : BoardEvaluation) (alpha : Score),
      Score.InRange best.score → Score.InRange (qloop beta d children best alpha).score
  | .nil, best, alpha, h => by simpa [qloop] using h
  | .cons mv t r, best, alpha, h => by
    simp only [qloop]
    split_ifs with h1 h2 h3 h4
    · exact Score.flip_inRange _
    · exact qloop_inRange beta d r _ _ (Score.flip_inRange _)
    · exact qloop_inRange beta d r _ _ (Score.flip_inRange _)
    · exact qloop_inRange beta d r _ _ h
    · exact qloop_inRange beta d r _ _ h

/-- Every score `evaluate_board_quiescence` returns is representable. -/
theorem evalQ_inRange (t : QTree) (alpha beta : Score) (d : Nat) :
    Score.InRange (evalQ t alpha beta d).score := by
  rcases t with ⟨s, h, u, c⟩
  rcases s with _ | _ | _
  · simp only [evalQ]
    split_ifs
    · trivial
    · trivial
    all_goals exact qloop_inRange beta d c _ _ trivial
  · exact trivial
  · exact (by constructor <;> omega : Score.InRange (Score.Mate 0))

/-- The main-search loop preserves representability of the best score. -/
theorem gloop_inRange (csd : Nat) (beta : Score) (d : Nat) :
    ∀ (rest : GForest) (best : BoardEvaluation) (alpha : Score),
      Score.InRange best.score → Score.InRange (gloop csd beta d rest best alpha).score
  | .nil, best, alpha, h => by simpa [gloop] using h
  | .cons mv t r, best, alpha, h => by
    simp only [gloop]
    split_ifs with h1 h2 h3 h4
    · exact Score.flip_inRange _
    · exact h
    · exact gloop_inRange csd beta d r _ _ (Score.flip_inRange _)
    · exact gloop_inRange csd beta d r _ _ (Score.flip_inRange _)
    · exact gloop_inRange csd beta d r _ _ h

/-- Every score `evaluate_board` returns is representable. -/
theorem evalG_inRange (csd : Nat) (t : GTree) (alpha beta : Score) (d : Nat) :
    Score.InRange (evalG csd t alpha beta d).score := by
  rcases t with ⟨s, h, u, q, c⟩
  rcases s with _ | _ | _
  · simp only [evalG]
    split_ifs
    · exact evalQ_inRange _ alpha beta d
    · trivial
    · exact gloop_inRange csd beta d c _ _ (by constructor <;> omega)
  · exact trivial
  · exact (by constructor <;> omega : Score.InRange (Score.Mate 0))

theorem gloop_mv_isSome (csd : Nat) (beta : Score) (d : Nat) :
    ∀ (rest : GForest) (best : BoardEvaluation) (alpha : Score),
      best.mv.isSome = true → (gloop csd beta d rest best alpha).mv.isSome = true
  | .nil, best, alpha, h => by simpa [gloop] using h
  | .cons mv t r, best, alpha, h => by
    simp only [gloop]
    split_ifs with h1 h2 h3 h4
    · simp [BoardEvaluation.overwrite, BoardEvaluation.from_child]
    · exact h
    · exact gloop_mv_isSome csd beta d r _ _
        (by simp [BoardEvaluation.overwrite, BoardEvaluation.from_child])
    · exact gloop_mv_isSome csd beta d r _ _
        (by simp [BoardEvaluation.overwrite, BoardEvaluation.from_child])
    · exact gloop_mv_isSome csd beta d r _ _ h

theorem qloop_score_lb (beta : Score) (d : Nat) (sp : Score)
    (hlt : Score.slt sp beta = true) :
    ∀ (children : QForest) (best : BoardEvaluation) (alpha : Score),
      Score.sle sp best.score = true →
      Score.sle sp (qloop beta d children best alpha).score = true
  | .nil, best, alpha, h => by simpa [qloop] using h
  | .cons mv t r, best, alpha, h => by
    simp only [qloop]
    split_ifs with h1 h2 h3 h4
    · rw [Score.sle_iff]
      rw [Score.slt_iff] at hlt
      rw [Score.sge_iff] at h1
      intro hgt
      exact h1 (Score.gtSpec_trans hlt hgt)
    · refine qloop_score_lb beta d sp hlt r _ _ ?_
      rw [Score.sle_iff, BoardEvaluation.overwrite]
      rw [BoardEvaluation.blt_iff] at h2
      rw [Score.sle_iff] at h
      intro hgt
      exact h (Score.gtSpec_trans hgt h2)
    · refine qloop_score_lb beta d sp hlt r _ _ ?_
      rw [Score.sle_iff, BoardEvaluation.overwrite]
      rw [BoardEvaluation.blt_iff] at h2
      rw [Score.sle_iff] at h
      intro hgt
      exact h (Score.gtSpec_trans hgt h2)
    · exact qloop_score_lb beta d sp hlt r _ _ h
    · exact qloop_score_lb beta d sp hlt r _ _ h

/-!
The claim theorems.
-/

/-- C1: the claim states that `eval_heuristic board` plus `eval_heuristic`
of the side-to-move-swapped board is `Centipawn(0)` whenever the swap is
physically realizable. The code indexes the piece-square tables by the side
to move (`idx = i` if white to move, else `i XOR 56`) for BOTH players'
pieces, so the property fails: on the legal kings-only position (white Ke1,
black Ke8) both orientations evaluate to `Centipawn(-17)` and the sum is
−34, not 0. -/
theorem C1_eval_perspective_flip_fails :
    eval_heuristic kingsWhite = Score.cp (-17) ∧
    eval_heuristic kingsBlack = Score.cp (-17) ∧
    piece_table_eval kingsWhite + piece_table_eval kingsBlack ≠ 0 :=
  ⟨by decide, by decide, by decide⟩

/-- C2 counterexample: a subtree of `c2tree` (its second child) hits the
time gate and returns `terminated_early = true`, yet the root call returns
`terminated_early = false`, because the gated child's lifted value
(`cp(-50)`) never beats the clean best (`cp(0)`) and `overwrite` is the only
way the flag moves into the ancestor's record. The first conjunct evaluates
the gated child exactly as the root's sibling loop does (alpha snapshot
`cp 0` after the first child). -/
theorem C2_counterexample_not_sticky :
    (evalG 5 c2gatedChild (Score.Mate (-2)) (Score.cp 0) 1).terminated_early = true ∧
    evalG 5 c2tree Score.min Score.max 0 =
      { mv := some 1, depth := 1, score := Score.cp 0, terminated_early := false } :=
  ⟨by decide, by decide⟩

/-- C2 amended: `terminated_early` propagates along the lifted path — a node
that hits the time gate returns the flag set, and `from_child` preserves the
child's flag — but it poisons an ancestor only if the gated record is the
one the ancestor finally selects; a timed-out subtree that never becomes
`best` (nor a cutoff) is dropped. -/
theorem C2_amended_sticky_on_lifted_path :
    (∀ (child : BoardEvaluation) (mv : Move),
      (BoardEvaluation.from_child child mv).terminated_early = child.terminated_early) ∧
    (∀ (csd : Nat) (t : GTree) (alpha beta : Score) (d : Nat),
      t.status = .Ongoing → d ≠ csd → t.timeUp = true →
      (evalG csd t alpha beta d).terminated_early = true) ∧
    (∀ (t : QTree) (alpha beta : Score) (d : Nat),
      t.status = .Ongoing → t.timeUp = true →
      (evalQ t alpha beta d).terminated_early = true) := by
  refine ⟨fun child mv => rfl, ?_, ?_⟩
  · intro csd t alpha beta d hs hd ht
    rcases t with ⟨s, h, u, q, c⟩
    simp only [GTree.status] at hs
    simp only [GTree.timeUp] at ht
    subst hs; subst ht
    simp [evalG, hd, BoardEvaluation.mkScoreEarly]
  · intro t alpha beta d hs ht
    rcases t with ⟨s, h, u, c⟩
    simp only [QTree.status] at hs
    simp only [QTree.timeUp] at ht
    subst hs; subst ht
    simp [evalQ, BoardEvaluation.mkScoreEarly]

/-- C2 witness: the amended theorem applied to the concrete gated node. -/
theorem C2_witness :
    (evalG 5 c2gatedChild Score.min Score.max 1).terminated_early = true :=
  C2_amended_sticky_on_lifted_path.2.1 5 c2gatedChild Score.min Score.max 1
    (by decide) (by decide) (by decide)

/-- C3 counterexample: in `c3tree` (searched with `current_search_depth = 2`
and the root window `(min, max)`), the second child's lifted value is
`{mv := some 2, depth := 1, score := Mate 1, terminated_early := false}` and
its score `Mate 1 ≥ beta = Mate 1` fires the beta cutoff — but the root
returns depth 2 (the max with the previously explored sibling's depth),
not the lifted value itself. -/
theorem C3_counterexample_cutoff_value :
    BoardEvaluation.from_child (evalG 2 c3mateChild (Score.Mate (-2)) (Score.cp 0) 1) 2 =
      { mv := some 2, depth := 1, score := Score.Mate 1, terminated_early := false } ∧
    Score.sge (Score.Mate 1) Score.max = true ∧
    evalG 2 c3tree Score.min Score.max 0 =
      { mv := some 2, depth := 2, score := Score.Mate 1, terminated_early := false } :=
  ⟨by decide, by decide, by decide⟩

/-- C3 amended: when a child's lifted value has score ≥ beta, the node
returns immediately, but what it returns is the shared `best` after the
merge step: `best.overwrite(lifted)` when the lifted value strictly exceeds
the previous best (same move, score and flag as the lifted value but depth
the max of the two), and the untouched previous `best` otherwise. -/
theorem C3_amended_cutoff_returns_best (csd : Nat) (beta : Score) (d : Nat)
    (mv : Move) (t : GTree) (rest : GForest) (best : BoardEvaluation) (alpha : Score)
    (hcut : Score.sge (BoardEvaluation.from_child
      (evalG csd t (Score.flip beta) (Score.flip alpha) (d + 1)) mv).score beta = true) :
    (BoardEvaluation.blt best (BoardEvaluation.from_child
        (evalG csd t (Score.flip beta) (Score.flip alpha) (d + 1)) mv) = true →
      gloop csd beta d (GForest.cons mv t rest) best alpha =
        BoardEvaluation.overwrite best (BoardEvaluation.from_child
          (evalG csd t (Score.flip beta) (Score.flip alpha) (d + 1)) mv)) ∧
    (BoardEvaluation.blt best (BoardEvaluation.from_child
        (evalG csd t (Score.flip beta) (Score.flip alpha) (d + 1)) mv) = false →
      gloop csd beta d (GForest.cons mv t rest) best alpha = best) := by
  constructor <;> intro hb <;> simp [gloop, hb, hcut]

/-- C3 witness: the amended theorem at the concrete cutoff of `c3tree`:
the previous best has depth 2, the lifted mate value depth 1, and the
returned record is the overwrite (depth 2). -/
theorem C3_witness :
    gloop 2 Score.max 0 (GForest.cons 2 c3mateChild GForest.nil)
      { mv := some 1, depth := 2, score := Score.cp 0, terminated_early := false }
      (Score.cp 0) =
      BoardEvaluation.overwrite
        { mv := some 1, depth := 2, score := Score.cp 0, terminated_early := false }
        (BoardEvaluation.from_child
          (evalG 2 c3mateChild (Score.flip Score.max) (Score.flip (Score.cp 0)) 1) 2) :=
  (C3_amended_cutoff_returns_best 2 Score.max 0 2 c3mateChild GForest.nil
    { mv := some 1, depth := 2, score := Score.cp 0, terminated_early := false }
    (Score.cp 0) (by decide)).1 (by decide)

/-- C4: `Score`'s comparison orders `mate(0) < mate(-k) < cp(x) < mate(j)`
for all `k, j > 0` and every representable `x : i16` (ranges state
representability of the mate arguments as `i8`), and `Score::min() = Mate(0)`
and `Score::max() = Mate(1)` are extremes: every score lies between them. -/
theorem C4_score_order_and_bounds :
    (∀ k j x : Int, 0 < k → k ≤ 128 → 0 < j → j ≤ 127 →
      -32768 ≤ x → x ≤ 32767 →
      Score.slt (Score.mate 0) (Score.mate (-k)) = true ∧
      Score.slt (Score.mate (-k)) (Score.cp x) = true ∧
      Score.slt (Score.cp x) (Score.mate j) = true) ∧
    Score.min = Score.mate 0 ∧
    Score.max = Score.mate 1 ∧
    (∀ s : Score, Score.sle Score.min s = true ∧ Score.sle s Score.max = true) := by
  refine ⟨?_, rfl, rfl, ?_⟩
  · intro k j x hk hk2 hj hj2 hx1 hx2
    refine ⟨?_, ?_, ?_⟩ <;> rw [Score.slt_iff] <;>
      simp only [Score.mate, Score.cp, Score.gtSpec] <;> omega
  · intro s
    constructor <;> rw [Score.sle_iff] <;>
      rcases s with c | m <;>
      simp only [Score.min, Score.max, Score.gtSpec] <;> omega

/-- C4 witness: the ordering chain at `k = 1, j = 1, x = 0` and the bounds
at `s = cp 0`. -/
theorem C4_witness :
    (Score.slt (Score.mate 0) (Score.mate (-1)) = true ∧
      Score.slt (Score.mate (-1)) (Score.cp 0) = true ∧
      Score.slt (Score.cp 0) (Score.mate 1) = true) ∧
    (Score.sle Score.min (Score.cp 0) = true ∧
      Score.sle (Score.cp 0) Score.max = true) :=
  ⟨C4_score_order_and_bounds.1 1 1 0 (by decide) (by decide) (by decide)
      (by decide) (by decide) (by decide),
    C4_score_order_and_bounds.2.2.2 (Score.cp 0)⟩

/-- C5 counterexample: the claim asserts `mate(-m).flip() == mate(m+1)` for
every `m > 0`, but at `m = 127` the source's `i8` arithmetic overflows:
`(-127).abs() + 1 = 128` wraps to −128 (release; debug builds panic), so
`mate(-127).flip()` is `Mate(-128)`, not the claimed — and unrepresentable —
`mate(128)`. -/
theorem C5_counterexample_boundary_wrap :
    Score.flip (Score.mate (-127)) = Score.mate (-128) ∧
    Score.mate (-128) ≠ Score.mate (127 + 1) :=
  ⟨by decide, by decide⟩

/-- C5 amended: the flip equations hold on the inputs where the source's
arithmetic does not overflow — `cp(c).flip() = cp(-c)` for
`-32767 ≤ c ≤ 32767`, `mate(0).flip() = mate(1)`,
`mate(m).flip() = mate(-(m+1))` for the full positive range `0 < m ≤ 127`
(at `m = 127` the intermediate `i8` wraps land exactly on the representable
`Mate(-128)`), and `mate(-m).flip() = mate(m+1)` for `0 < m ≤ 126`. At the
remaining representable inputs the release-mode wrapping yields
`cp(-32768).flip() = cp(-32768)`, `mate(-127).flip() = mate(-128)` and
`mate(-128).flip() = mate(-127)` (debug builds panic there). -/
theorem C5_flip_cases_amended :
    (∀ c : Int, -32767 ≤ c → c ≤ 32767 → Score.flip (Score.cp c) = Score.cp (-c)) ∧
    Score.flip (Score.mate 0) = Score.mate 1 ∧
    (∀ m : Int, 0 < m → m ≤ 127 → Score.flip (Score.mate m) = Score.mate (-(m + 1))) ∧
    (∀ m : Int, 0 < m → m ≤ 126 → Score.flip (Score.mate (-m)) = Score.mate (m + 1)) ∧
    Score.flip (Score.cp (-32768)) = Score.cp (-32768) ∧
    Score.flip (Score.mate (-127)) = Score.mate (-128) ∧
    Score.flip (Score.mate (-128)) = Score.mate (-127) := by
  refine ⟨?_, by decide, ?_, ?_, by decide, by decide, by decide⟩
  · intro c h1 h2
    simp only [Score.cp, Score.flip, Score.Centipawns.injEq, wrap16]
    omega
  · intro m h1 h2
    simp only [Score.mate, Score.flip, if_pos h1, abs_of_pos h1,
      Score.Mate.injEq, wrap8]
    omega
  · intro m h1 h2
    have hneg : ¬ (0 < -m) := by omega
    simp only [Score.mate, Score.flip, if_neg hneg, abs_neg, abs_of_pos h1,
      Score.Mate.injEq, wrap8]
    omega

/-- C5 witness: the amended theorem applied at `cp 5`, `mate 3` and
`mate (-3)`. -/
theorem C5_witness :
    Score.flip (Score.cp 5) = Score.cp (-5) ∧
    Score.flip (Score.mate 3) = Score.mate (-4) ∧
    Score.flip (Score.mate (-3)) = Score.mate 4 :=
  ⟨C5_flip_cases_amended.1 5 (by decide) (by decide),
    C5_flip_cases_amended.2.2.1 3 (by decide) (by decide),
    C5_flip_cases_amended.2.2.2.1 3 (by decide) (by decide)⟩

/-- C6: at an interior node (status Ongoing, depth strictly below
`current_search_depth`, deadline not passed), the returned record carries
`mv = Some _`, provided the node has at least one legal move — which the
rules library guarantees for an Ongoing position (positions without legal
moves are classified Checkmate or Stalemate). Hence the driver's
`NoLegalMoves` failure path is unreachable for such positions. -/
theorem C6_interior_returns_move (csd : Nat) (t : GTree) (alpha beta : Score)
    (d : Nat) (hs : t.status = .Ongoing) (hd : d < csd) (ht : t.timeUp = false)
    (hc : t.children ≠ GForest.nil) :
    (evalG csd t alpha beta d).mv.isSome = true := by
  rcases t with ⟨s, h, u, q, c⟩
  simp only [GTree.status] at hs
  simp only [GTree.timeUp] at ht
  simp only [GTree.children] at hc
  subst hs; subst ht
  have hd2 : d ≠ csd := Nat.ne_of_lt hd
  rcases c with _ | ⟨mv, ct, rest⟩
  · exact absurd rfl hc
  · have hblt : BoardEvaluation.blt BoardEvaluation.min
        (BoardEvaluation.from_child
          (evalG csd ct (Score.flip beta) (Score.flip alpha) (d + 1)) mv) = true := by
      rw [BoardEvaluation.blt_iff]
      exact Score.gtSpec_of_ne_mate0 _
        (Score.flip_ne_mate0 _
          (evalG_inRange csd ct (Score.flip beta) (Score.flip alpha) (d + 1)))
    simp only [evalG, if_neg hd2, Bool.false_eq_true, if_false, gloop, hblt, if_true]
    split_ifs with hcut
    · simp [BoardEvaluation.overwrite, BoardEvaluation.from_child]
    all_goals
      exact gloop_mv_isSome csd beta d rest _ _
        (by simp [BoardEvaluation.overwrite, BoardEvaluation.from_child])

/-- C6 witness: the interior node `c2tree` searched below the horizon
returns a record with a move. -/
theorem C6_witness : (evalG 5 c2tree Score.min Score.max 0).mv.isSome = true :=
  C6_interior_returns_move 5 c2tree Score.min Score.max 0
    (by decide) (by decide) (by decide) (by decide)

/-- C8: on a Checkmate board both `evaluate_board` and
`evaluate_board_quiescence` return `Mate(0)` with `mv = None` and
`terminated_early = false`, and on a Stalemate board `Centipawn(0)` with
`mv = None` and `terminated_early = false`, regardless of the window and
depth. -/
theorem C8_terminal_scores :
    (∀ (csd : Nat) (t : GTree) (alpha beta : Score) (d : Nat),
      t.status = .Checkmate → evalG csd t alpha beta d =
        { mv := none, depth := d, score := Score.Mate 0, terminated_early := false }) ∧
    (∀ (csd : Nat) (t : GTree) (alpha beta : Score) (d : Nat),
      t.status = .Stalemate → evalG csd t alpha beta d =
        { mv := none, depth := d, score := Score.cp 0, terminated_early := false }) ∧
    (∀ (t : QTree) (alpha beta : Score) (d : Nat),
      t.status = .Checkmate → evalQ t alpha beta d =
        { mv := none, depth := d, score := Score.Mate 0, terminated_early := false }) ∧
    (∀ (t : QTree) (alpha beta : Score) (d : Nat),
      t.status = .Stalemate → evalQ t alpha beta d =
        { mv := none, depth := d, score := Score.cp 0, terminated_early := false }) := by
  refine ⟨?_, ?_, ?_, ?_⟩
  · intro csd t alpha beta d hs
    rcases t with ⟨s, h, u, q, c⟩
    simp only [GTree.status] at hs
    subst hs
    rfl
  · intro csd t alpha beta d hs
    rcases t with ⟨s, h, u, q, c⟩
    simp only [GTree.status] at hs
    subst hs
    rfl
  · intro t alpha beta d hs
    rcases t with ⟨s, h, u, c⟩
    simp only [QTree.status] at hs
    subst hs
    rfl
  · intro t alpha beta d hs
    rcases t with ⟨s, h, u, c⟩
    simp only [QTree.status] at hs
    subst hs
    rfl

/-- C8 witness: the four terminal cases evaluated at concrete nodes. -/
theorem C8_witness :
    evalG 3 c8mateG Score.min Score.max 2 =
      { mv := none, depth := 2, score := Score.Mate 0, terminated_early := false } ∧
    evalG 3 c8staleG Score.min Score.max 2 =
      { mv := none, depth := 2, score := Score.cp 0, terminated_early := false } ∧
    evalQ c8mateQ Score.min Score.max 7 =
      { mv := none, depth := 7, score := Score.Mate 0, terminated_early := false } ∧
    evalQ c8staleQ Score.min Score.max 7 =
      { mv := none, depth := 7, score := Score.cp 0, terminated_early := false } :=
  ⟨C8_terminal_scores.1 3 c8mateG Score.min Score.max 2 (by decide),
    C8_terminal_scores.2.1 3 c8staleG Score.min Score.max 2 (by decide),
    C8_terminal_scores.2.2.1 c8mateQ Score.min Score.max 7 (by decide),
    C8_terminal_scores.2.2.2 c8staleQ Score.min Score.max 7 (by decide)⟩

/-- C9: at an Ongoing quiescence node whose deadline has not passed, with
`stand_pat = eval_heuristic(board)` (the node's heuristic as a centipawn
score): if `stand_pat ≥ beta` the function returns exactly
`score(stand_pat, depth)`, and otherwise the returned record's score is at
least `stand_pat` — declining every capture is always an option. -/
theorem C9_quiescence_stand_pat (t : QTree) (alpha beta : Score) (d : Nat)
    (hs : t.status = .Ongoing) (ht : t.timeUp = false) :
    (Score.sge (Score.cp t.heur) beta = true →
      evalQ t alpha beta d = BoardEvaluation.mkScore (Score.cp t.heur) d) ∧
    (Score.sge (Score.cp t.heur) beta = false →
      Score.sle (Score.cp t.heur) (evalQ t alpha beta d).score = true) := by
  rcases t with ⟨s, h, u, c⟩
  simp only [QTree.status] at hs
  simp only [QTree.timeUp] at ht
  simp only [QTree.heur]
  subst hs; subst ht
  constructor
  · intro hge
    simp [evalQ, hge]
  · intro hge
    simp only [evalQ, Bool.false_eq_true, if_false, hge]
    apply qloop_score_lb
    · rw [Score.slt_iff]
      rw [Score.sge_false_iff] at hge
      exact hge
    · rw [Score.sle_iff]
      exact Score.gtSpec_irrefl _

/-- C9 witness: on `c9tree` (stand-pat 40, one capture whose reply position
has stand-pat −90 for the opponent), the stand-pat is below `beta = max`
and the returned score is at least the stand-pat `cp 40`. -/
theorem C9_witness :
    Score.sge (Score.cp 40) Score.max = false ∧
    Score.sle (Score.cp 40) ((evalQ c9tree Score.min Score.max 0).score) = true :=
  ⟨by decide,
    (C9_quiescence_stand_pat c9tree Score.min Score.max 0 (by decide) (by decide)).2
      (by decide)⟩

/-- C10: `BoardEvaluation`'s ordering compares only `score`, while its
derived equality compares all fields: two records with equal scores but
different `depth` compare `Equal` yet are not equal. -/
theorem C10_cmp_eq_does_not_imply_eq :
    ∃ a b : BoardEvaluation, BoardEvaluation.cmp a b = Ordering.eq ∧ a ≠ b :=
  ⟨{ mv := none, depth := 0, score := Score.cp 0, terminated_early := false },
    { mv := none, depth := 1, score := Score.cp 0, terminated_early := false },
    by decide, by decide⟩

/-- C7 counterexample: with `movetime = 10 ms < SLACK_TIME = 20 ms`, the
unchecked `Duration` subtraction `movetime - SLACK_TIME` underflows and
panics — the failure mode is a panic, not the checked fatal-error result
the claim requires for all over/underflow. -/
theorem C7_counterexample_underflow_panics :
    calculate_stop_time Color.White { infinite := false, movetime := some 10000000 } 0 =
      TimeCalcResult.panicUnderflow ∧
    calculate_stop_time Color.White { infinite := false, movetime := some 10000000 } 0 ≠
      TimeCalcResult.fatalError :=
  ⟨by decide, by decide⟩

/-- `subSlackAndAdd` when the duration covers the slack. -/
theorem subSlackAndAdd_of_le (now t : Nat) (h : SLACK_TIME ≤ t) :
    subSlackAndAdd now t = addStop now (t - SLACK_TIME) := by
  unfold subSlackAndAdd durationSub
  rw [if_neg (Nat.not_lt_of_le h)]

/-- `subSlackAndAdd` when the duration is below the slack: the unchecked
subtraction panics. -/
theorem subSlackAndAdd_of_lt (now t : Nat) (h : t < SLACK_TIME) :
    subSlackAndAdd now t = TimeCalcResult.panicUnderflow := by
  unfold subSlackAndAdd durationSub
  rw [if_pos h]

/-- `addStop` when the addition stays representable. -/
theorem addStop_ok (now d : Nat) (h : now + d ≤ INSTANT_MAX) :
    addStop now d = TimeCalcResult.ok (some now) (some (now + d)) := by
  unfold addStop instantCheckedAdd
  rw [if_pos h]

/-- `addStop` when the addition overflows: the checked add surfaces the
fatal error result. -/
theorem addStop_overflow (now d : Nat) (h : INSTANT_MAX < now + d) :
    addStop now d = TimeCalcResult.fatalError := by
  unfold addStop instantCheckedAdd
  rw [if_neg (Nat.not_le_of_lt h)]

/-- C7 amended: for every options value with `infinite = false` and
`movetime = Some t` (the remaining fields arbitrary): when
`movetime ≥ SLACK_TIME` the stop time is `now + movetime − SLACK_TIME` and
`Instant` addition overflow is checked, surfacing as the fatal error
result; but when `movetime < SLACK_TIME` the unchecked `Duration`
subtraction panics instead of surfacing as an error result. -/
theorem C7_amended_movetime_branch (side : Color) (now t : Nat)
    (wt bt wi bi mtg dep : Option Nat) :
    (SLACK_TIME ≤ t → now + (t - SLACK_TIME) ≤ INSTANT_MAX →
      calculate_stop_time side
          ⟨false, some t, wt, bt, wi, bi, mtg, dep⟩ now =
        TimeCalcResult.ok (some now) (some (now + (t - SLACK_TIME)))) ∧
    (SLACK_TIME ≤ t → INSTANT_MAX < now + (t - SLACK_TIME) →
      calculate_stop_time side
          ⟨false, some t, wt, bt, wi, bi, mtg, dep⟩ now =
        TimeCalcResult.fatalError) ∧
    (t < SLACK_TIME →
      calculate_stop_time side
          ⟨false, some t, wt, bt, wi, bi, mtg, dep⟩ now =
        TimeCalcResult.panicUnderflow) := by
  refine ⟨?_, ?_, ?_⟩
  · intro h1 h2
    show subSlackAndAdd now t = _
    rw [subSlackAndAdd_of_le now t h1, addStop_ok now (t - SLACK_TIME) h2]
  · intro h1 h2
    show subSlackAndAdd now t = _
    rw [subSlackAndAdd_of_le now t h1, addStop_overflow now (t - SLACK_TIME) h2]
  · intro h1
    show subSlackAndAdd now t = _
    rw [subSlackAndAdd_of_lt now t h1]

/-- C7 witness: the amended theorem at `movetime = 30 ms`, `now = 0`
(stop time 10 ms after the epoch) and at `movetime = 10 ms` (panic). -/
theorem C7_witness :
    calculate_stop_time Color.White
        ⟨false, some 30000000, none, none, none, none, none, none⟩ 0 =
      TimeCalcResult.ok (some 0) (some 10000000) ∧
    calculate_stop_time Color.Black
        ⟨false, some 10000000, none, none, none, none, none, none⟩ 5 =
      TimeCalcResult.panicUnderflow :=
  ⟨(C7_amended_movetime_branch Color.White 0 30000000
      none none none none none none).1 (by decide) (by decide),
    (C7_amended_movetime_branch Color.Black 5 10000000
      none none none none none none).2.2 (by decide)⟩
